import Mathlib

/-!
Shallow embedding of the simulation core of `src/app.py` (Swiss Investment
Strategy Simulator).  All Python float arithmetic is modelled exactly over ℚ.
The two places where the source takes a real twelfth root,
`(1 + annual_return) ** (1/12)` in `simulate_investment_strategy` and
`(1 + real_estate_growth) ** (1/12)` in `calculate_ltv_progression`, are
irrational; those simulators are therefore parameterized by the resulting
monthly rate (respectively monthly growth factor), which the source computes
once before its loop.  Module-level globals of the script (`monthly_rent`,
`portfolio_return`, `real_estate_growth`) are passed as explicit parameters.
-/

namespace App

/-- Swiss minimum annual amortization as computed inside
`calculate_minimum_payments` (src/app.py lines 186-191): if the initial LTV
`1 - down_payment/property_price` exceeds 0.667 it is
`(loan - property_price * 0.667) / 15`, else 0.  The source divides by 12
inside the branch; since `0 / 12 = 0` the monthly value is this quantity
divided by 12. -/
def cminp_min_amort_per_year (property_price down_payment : ℚ) : ℚ :=
  if 1 - down_payment / property_price > 667/1000 then
    ((property_price - down_payment) - property_price * (667/1000)) / 15
  else 0

/-- The same conditional as computed inside `calculate_monthly_payments`
(src/app.py lines 229-233). -/
def cmp_min_amort_per_year (property_price down_payment : ℚ) : ℚ :=
  if 1 - down_payment / property_price > 667/1000 then
    ((property_price - down_payment) - property_price * (667/1000)) / 15
  else 0

/-- The same conditional as computed inside `simulate_real_estate_strategy`
(src/app.py lines 291-295). -/
def re_min_amort_per_year (property_price down_payment : ℚ) : ℚ :=
  if 1 - down_payment / property_price > 667/1000 then
    ((property_price - down_payment) - property_price * (667/1000)) / 15
  else 0

/-- The same conditional as computed inside `simulate_hybrid_strategy`
(src/app.py lines 344-348). -/
def hybrid_min_amort_per_year (property_price down_payment : ℚ) : ℚ :=
  if 1 - down_payment / property_price > 667/1000 then
    ((property_price - down_payment) - property_price * (667/1000)) / 15
  else 0

/-- Minimum annual amortization as the specification words it (section 4.1 /
section 8 of spec.md): 0 whenever `loan / price ≤ 0.667`, and
`(loan - 0.667 * price) / 15` otherwise.  This definition follows the spec
text and is compared against the four source-site definitions above. -/
def spec_min_annual_amort (loan price : ℚ) : ℚ :=
  if loan / price ≤ 667/1000 then 0 else (loan - (667/1000) * price) / 15

/-- Result record of `calculate_minimum_payments` (src/app.py lines 182-197). -/
structure MinPayments where
  monthly_interest : ℚ
  monthly_min_amort : ℚ
  total_min_payment : ℚ

/-- Embeds `calculate_minimum_payments` (src/app.py lines 182-197). -/
def calculate_minimum_payments (property_price down_payment interest_rate : ℚ) :
    MinPayments :=
  let loan := property_price - down_payment
  let monthly_interest := loan * interest_rate / 12
  let monthly_min_amort := cminp_min_amort_per_year property_price down_payment / 12
  { monthly_interest := monthly_interest
    monthly_min_amort := monthly_min_amort
    total_min_payment := monthly_interest + monthly_min_amort }

/-- Result record of `calculate_monthly_payments` (src/app.py lines 252-257). -/
structure MonthlyPayments where
  interest : ℚ
  amortization : ℚ
  investment : ℚ
  is_sufficient : Bool

/-- Embeds `calculate_monthly_payments` (src/app.py lines 223-257).  The
`amort_years` argument is accepted and unused, exactly as in the source. -/
def calculate_monthly_payments (property_price down_payment monthly_budget
    interest_rate : ℚ) (amort_years : ℕ) (is_hybrid : Bool) : MonthlyPayments :=
  let loan := property_price - down_payment
  let min_amort_per_year := cmp_min_amort_per_year property_price down_payment
  let monthly_interest := loan * interest_rate / 12
  let monthly_min_amort := min_amort_per_year / 12
  let is_sufficient := decide (monthly_budget ≥ monthly_interest + monthly_min_amort)
  if is_sufficient then
    if is_hybrid then
      { interest := monthly_interest
        amortization := monthly_min_amort
        investment := monthly_budget - monthly_interest - monthly_min_amort
        is_sufficient := is_sufficient }
    else
      { interest := monthly_interest
        amortization := min (loan/12) (max monthly_min_amort (monthly_budget - monthly_interest))
        investment := 0
        is_sufficient := is_sufficient }
  else
    { interest := monthly_interest
      amortization := if monthly_budget > monthly_interest then monthly_budget - monthly_interest else 0
      investment := 0
      is_sufficient := is_sufficient }

/-- One monthly update of `simulate_investment_strategy` (src/app.py line 267):
`value = value * (1 + monthly_rate) + (monthly_amount - monthly_rent)`. -/
def investStep (monthly_amount monthly_rent monthly_rate value : ℚ) : ℚ :=
  value * (1 + monthly_rate) + (monthly_amount - monthly_rent)

/-- The loop of `simulate_investment_strategy` (src/app.py lines 266-269):
iterates months starting at index `m` for `fuel` further months, appending the
current value whenever the month index satisfies `m % 12 = 11`. -/
def investLoop (monthly_amount monthly_rent monthly_rate : ℚ) :
    ℕ → ℕ → ℚ → List ℚ
  | _, 0, _ => []
  | m, fuel + 1, value =>
    let v := investStep monthly_amount monthly_rent monthly_rate value
    if m % 12 = 11 then
      v :: investLoop monthly_amount monthly_rent monthly_rate (m+1) fuel v
    else
      investLoop monthly_amount monthly_rent monthly_rate (m+1) fuel v

/-- Embeds `simulate_investment_strategy` (src/app.py lines 260-271).
`monthly_rate` stands for the source expression
`(1 + annual_return) ** (1/12) - 1`; `monthly_rent` is the module-level
global the source closes over. -/
def simulate_investment_strategy (monthly_amount monthly_rate initial_capital
    monthly_rent : ℚ) (years : ℕ) : List ℚ :=
  investLoop monthly_amount monthly_rent monthly_rate 0 (years * 12) initial_capital

/-- Parameters of `simulate_real_estate_strategy`; `portfolio_return` is the
module-level global the source closes over. -/
structure REParams where
  property_price : ℚ
  down_payment : ℚ
  monthly_budget : ℚ
  interest_rate : ℚ
  appreciation_rate : ℚ
  portfolio_return : ℚ
  amort_years : ℕ
  continue_amortization : Bool

/-- Loop-local state of `simulate_real_estate_strategy`. -/
structure REState where
  balance : ℚ
  property_value : ℚ
  investment_value : ℚ
  payoff_year : Option ℕ

/-- Initial state of `simulate_real_estate_strategy` (src/app.py lines 283-289). -/
def reInit (P : REParams) : REState :=
  { balance := P.property_price - P.down_payment
    property_value := P.property_price
    investment_value := 0
    payoff_year := none }

/-- One year of the loop of `simulate_real_estate_strategy`
(src/app.py lines 297-327).  Returns the new state together with the year's
amortization amount (0 in the non-amortizing branches). -/
def reYear (P : REParams) (year : ℕ) (s : REState) : REState × ℚ :=
  let property_value := s.property_value * (1 + P.appreciation_rate)
  let interest := s.balance * P.interest_rate
  let current_ltv := if property_value > 0 then s.balance / property_value else 0
  let available_for_amort := P.monthly_budget * 12 - interest
  if s.balance = 0 then
    ({ balance := s.balance
       property_value := property_value
       investment_value := s.investment_value * (1 + P.portfolio_return) + P.monthly_budget * 12
       payoff_year := s.payoff_year }, 0)
  else if current_ltv > 667/1000 ∨ (P.continue_amortization ∧ year < P.amort_years) then
    let amortization :=
      min s.balance (max (re_min_amort_per_year P.property_price P.down_payment) available_for_amort)
    let balance := s.balance - amortization
    ({ balance := balance
       property_value := property_value
       investment_value := s.investment_value
       payoff_year :=
         if balance = 0 ∧ s.payoff_year = none then some (year + 1) else s.payoff_year },
     amortization)
  else
    let monthly_investment := max 0 ((P.monthly_budget * 12 - interest) / 12)
    ({ balance := s.balance
       property_value := property_value
       investment_value := s.investment_value * (1 + P.portfolio_return) + monthly_investment * 12
       payoff_year := s.payoff_year }, 0)

/-- State of `simulate_real_estate_strategy` after `n` years of its loop. -/
def reStateAt (P : REParams) : ℕ → REState
  | 0 => reInit P
  | n + 1 => (reYear P n (reStateAt P n)).1

/-- Amortization paid in year `year` (0-indexed) of `simulate_real_estate_strategy`. -/
def reAmortAt (P : REParams) (year : ℕ) : ℚ :=
  (reYear P year (reStateAt P year)).2

/-- Embeds `simulate_real_estate_strategy` (src/app.py lines 273-329): the
30-point net-worth series (each year appends
`property_value - balance + investment_value` after that year's update)
and the final `payoff_year`. -/
def simulate_real_estate_strategy (P : REParams) : List ℚ × Option ℕ :=
  ((List.range 30).map fun year =>
      let s := reStateAt P (year + 1)
      s.property_value - s.balance + s.investment_value,
   (reStateAt P 30).payoff_year)

/-- Parameters of `simulate_hybrid_strategy` (here `portfolio_return` is an
explicit argument of the source function). -/
structure HybridParams where
  property_price : ℚ
  down_payment : ℚ
  monthly_budget : ℚ
  interest_rate : ℚ
  appreciation_rate : ℚ
  portfolio_return : ℚ
  amort_years : ℕ

/-- Loop-local state of `simulate_hybrid_strategy`. -/
structure HybridState where
  balance : ℚ
  property_value : ℚ
  investment_value : ℚ
  payoff_year : Option ℕ

/-- Initial state of `simulate_hybrid_strategy` (src/app.py lines 336-342). -/
def hybridInit (P : HybridParams) : HybridState :=
  { balance := P.property_price - P.down_payment
    property_value := P.property_price
    investment_value := 0
    payoff_year := none }

/-- One year of the loop of `simulate_hybrid_strategy` (src/app.py lines
350-384).  The source's common tail `balance = max(0, balance)` and
`investment_value = investment_value * (1 + portfolio_return) +
monthly_investment * 12` is applied in every branch here; note that in the
`balance == 0` branch the source updates `investment_value` inside the branch
(line 364) and then again at the tail (line 382), so that branch applies the
investment update twice.  Returns the new state and the annual amount
subtracted from the balance (0 outside the amortizing branch). -/
def hybridYear (P : HybridParams) (year : ℕ) (s : HybridState) : HybridState × ℚ :=
  let property_value := s.property_value * (1 + P.appreciation_rate)
  let interest := s.balance * P.interest_rate
  let current_ltv := if property_value > 0 then s.balance / property_value else 0
  let monthly_interest := interest / 12
  let min_amort_per_year := hybrid_min_amort_per_year P.property_price P.down_payment
  if s.balance = 0 then
    let monthly_investment := P.monthly_budget
    let investment_value := s.investment_value * (1 + P.portfolio_return) + monthly_investment * 12
    ({ balance := max 0 s.balance
       property_value := property_value
       investment_value := investment_value * (1 + P.portfolio_return) + monthly_investment * 12
       payoff_year := s.payoff_year }, 0)
  else if current_ltv > 667/1000 ∧ year < P.amort_years then
    let monthly_min_amort := min_amort_per_year / 12
    let monthly_investment := max 0 (P.monthly_budget - monthly_interest - monthly_min_amort)
    let balance := s.balance - min_amort_per_year
    let payoff_year :=
      if balance = 0 ∧ s.payoff_year = none then some (year + 1) else s.payoff_year
    ({ balance := max 0 balance
       property_value := property_value
       investment_value := s.investment_value * (1 + P.portfolio_return) + monthly_investment * 12
       payoff_year := payoff_year }, min_amort_per_year)
  else
    let monthly_investment := max 0 (P.monthly_budget - monthly_interest)
    ({ balance := max 0 s.balance
       property_value := property_value
       investment_value := s.investment_value * (1 + P.portfolio_return) + monthly_investment * 12
       payoff_year := s.payoff_year }, 0)

/-- State of `simulate_hybrid_strategy` after `n` years of its loop. -/
def hybridStateAt (P : HybridParams) : ℕ → HybridState
  | 0 => hybridInit P
  | n + 1 => (hybridYear P n (hybridStateAt P n)).1

/-- Annual amount subtracted from the balance in year `year` (0-indexed) of
`simulate_hybrid_strategy`. -/
def hybridAmortAt (P : HybridParams) (year : ℕ) : ℚ :=
  (hybridYear P year (hybridStateAt P year)).2

/-- Embeds `simulate_hybrid_strategy` (src/app.py lines 331-386). -/
def simulate_hybrid_strategy (P : HybridParams) : List ℚ × Option ℕ :=
  ((List.range 30).map fun year =>
      let s := hybridStateAt P (year + 1)
      s.property_value - s.balance + s.investment_value,
   (hybridStateAt P 30).payoff_year)

/-- Strategy tag of `calculate_ltv_progression` (the source compares strings
"pure_max", "pure_invest", "hybrid"). -/
inductive Strategy
  | pure_max
  | pure_invest
  | hybrid
deriving DecidableEq

/-- Parameters of `calculate_ltv_progression`; `monthly_growth` stands for the
source expression `(1 + real_estate_growth) ** (1/12)` (the module-level
appreciation global converted to a monthly compounding factor). -/
structure LtvParams where
  property_price : ℚ
  down_payment : ℚ
  monthly_budget : ℚ
  interest_rate : ℚ
  monthly_growth : ℚ
  strategy : Strategy

/-- The required loan reduction of `calculate_ltv_progression`
(src/app.py line 576): `loan - property_price * target_ltv`, with no floor. -/
def required_loan_reduction (P : LtvParams) : ℚ :=
  (P.property_price - P.down_payment) - P.property_price * (667/1000)

/-- The tracker's minimum monthly amortization (src/app.py line 577):
`required_loan_reduction / (15 * 12)`, again with no floor at zero. -/
def min_monthly_amort (P : LtvParams) : ℚ :=
  required_loan_reduction P / (15 * 12)

/-- Loop-local state of `calculate_ltv_progression`. -/
structure LtvState where
  balance : ℚ
  property_value : ℚ
  target_reached : Bool
  years_to_target : Option ℕ

/-- Initial state of `calculate_ltv_progression` (src/app.py lines 567-573). -/
def ltvInit (P : LtvParams) : LtvState :=
  { balance := P.property_price - P.down_payment
    property_value := P.property_price
    target_reached := false
    years_to_target := none }

/-- One month of the loop of `calculate_ltv_progression` (src/app.py lines
588-625).  Returns the new state together with the values appended that month
to `balance_progression`, `ltv_progression` and `amort_progression`. -/
def ltvMonth (P : LtvParams) (month : ℕ) (s : LtvState) : LtvState × ℚ × ℚ × ℚ :=
  let property_value := s.property_value * P.monthly_growth
  let monthly_interest := s.balance * P.interest_rate / 12
  let current_ltv := if property_value > 0 then s.balance / property_value else 0
  let target_reached :=
    if current_ltv ≤ 667/1000 ∧ s.target_reached = false then true
    else s.target_reached
  let years_to_target :=
    if current_ltv ≤ 667/1000 ∧ s.target_reached = false then some (month / 12 + 1)
    else s.years_to_target
  let monthly_amort :=
    if current_ltv ≤ 667/1000 then
      if P.strategy = Strategy.pure_max then
        min s.balance (max (min_monthly_amort P) (P.monthly_budget - monthly_interest))
      else 0
    else
      if P.strategy = Strategy.hybrid then
        min_monthly_amort P
      else
        min s.balance (max (min_monthly_amort P) (P.monthly_budget - monthly_interest))
  let balance := max 0 (s.balance - monthly_amort)
  ({ balance := balance
     property_value := property_value
     target_reached := target_reached
     years_to_target := years_to_target }, balance, current_ltv, monthly_amort)

/-- State of `calculate_ltv_progression` after `n` months of its loop. -/
def ltvStateAt (P : LtvParams) : ℕ → LtvState
  | 0 => ltvInit P
  | n + 1 => (ltvMonth P n (ltvStateAt P n)).1

/-- Balance recorded for month `m` by `calculate_ltv_progression` (the balance
after that month's amortization, src/app.py line 623). -/
def ltvBalRecAt (P : LtvParams) (m : ℕ) : ℚ :=
  (ltvMonth P m (ltvStateAt P m)).2.1

/-- LTV recorded for month `m` by `calculate_ltv_progression` (the
`current_ltv` computed before that month's amortization, src/app.py line 624). -/
def ltvLtvRecAt (P : LtvParams) (m : ℕ) : ℚ :=
  (ltvMonth P m (ltvStateAt P m)).2.2.1

/-- Amortization recorded for month `m` by `calculate_ltv_progression`
(src/app.py line 625). -/
def ltvAmortAt (P : LtvParams) (m : ℕ) : ℚ :=
  (ltvMonth P m (ltvStateAt P m)).2.2.2

/-- Debug record returned by `calculate_ltv_progression`
(src/app.py lines 628-639). -/
structure LtvDebug where
  property_price : ℚ
  loan : ℚ
  target_ltv : ℚ
  required_loan_reduction : ℚ
  min_monthly_amort : ℚ
  initial_monthly_interest : ℚ
  years_to_target : Option ℕ
  final_ltv : ℚ
  final_balance : ℚ
  strategy : Strategy

/-- Embeds `calculate_ltv_progression` (src/app.py lines 561-639): the
years-to-target marker, the 360-point balance and LTV progressions, and the
debug record.  (The source also builds `amort_progression` but does not return
it; it is exposed here as `ltvAmortAt`.) -/
def calculate_ltv_progression (P : LtvParams) :
    Option ℕ × List ℚ × List ℚ × LtvDebug :=
  ((ltvStateAt P 360).years_to_target,
   (List.range 360).map (fun month => ltvBalRecAt P month),
   (List.range 360).map (fun month => ltvLtvRecAt P month),
   { property_price := P.property_price
     loan := P.property_price - P.down_payment
     target_ltv := 667/1000
     required_loan_reduction := required_loan_reduction P
     min_monthly_amort := min_monthly_amort P
     initial_monthly_interest := (P.property_price - P.down_payment) * P.interest_rate / 12
     years_to_target := (ltvStateAt P 360).years_to_target
     final_ltv := ltvLtvRecAt P 359
     final_balance := ltvBalRecAt P 359
     strategy := P.strategy })

end App

namespace App

lemma one_sub_div_eq (p dp : ℚ) (hp : p ≠ 0) : 1 - dp / p = (p - dp) / p := by
  field_simp

lemma re_min_amort_eq_spec (p dp : ℚ) (hp : 0 < p) :
    re_min_amort_per_year p dp = spec_min_annual_amort (p - dp) p := by
  unfold re_min_amort_per_year spec_min_annual_amort
  by_cases h : (p - dp) / p ≤ 667/1000
  · have h1 : ¬ (1 - dp / p > 667/1000) := by
      rw [one_sub_div_eq p dp hp.ne']
      exact not_lt.mpr h
    rw [if_neg h1, if_pos h]
  · have h1 : 1 - dp / p > 667/1000 := by
      rw [one_sub_div_eq p dp hp.ne']
      exact not_le.mp h
    rw [if_pos h1, if_neg h]
    ring

/-- C4: for every nonnegative loan and positive property price, the minimum
annual amortization equals 0 when loan/price ≤ 0.667 and
(loan − 0.667·price)/15 when it exceeds 0.667, identically at all four
source sites that compute it. -/
theorem c4_min_amort_rule (p dp : ℚ) (hp : 0 < p) (hl : 0 ≤ p - dp) :
    cminp_min_amort_per_year p dp = spec_min_annual_amort (p - dp) p ∧
    cmp_min_amort_per_year p dp = spec_min_annual_amort (p - dp) p ∧
    re_min_amort_per_year p dp = spec_min_annual_amort (p - dp) p ∧
    hybrid_min_amort_per_year p dp = spec_min_annual_amort (p - dp) p := by
  refine ⟨?_, ?_, ?_, ?_⟩ <;> exact re_min_amort_eq_spec p dp hp

/-- Witness for c4_min_amort_rule at property price 3 and down payment 1. -/
theorem c4_min_amort_rule_witness :
    cminp_min_amort_per_year 3 1 = spec_min_annual_amort (3 - 1) 3 ∧
    cmp_min_amort_per_year 3 1 = spec_min_annual_amort (3 - 1) 3 ∧
    re_min_amort_per_year 3 1 = spec_min_annual_amort (3 - 1) 3 ∧
    hybrid_min_amort_per_year 3 1 = spec_min_annual_amort (3 - 1) 3 :=
  c4_min_amort_rule 3 1 (by norm_num) (by norm_num)

/-- C5: branch-exact description of `calculate_monthly_payments`: the
sufficiency flag, the insufficient branch, the sufficient hybrid branch and
the sufficient non-hybrid branch, with the minimum monthly amortization being
the section 4.1 annual minimum divided by 12. -/
theorem c5_payment_calculator (p dp b rate : ℚ) (aY : ℕ) (hyb : Bool) (hp : 0 < p) :
    ((calculate_monthly_payments p dp b rate aY hyb).is_sufficient = true ↔
      (p - dp) * rate / 12 + spec_min_annual_amort (p - dp) p / 12 ≤ b) ∧
    (b < (p - dp) * rate / 12 + spec_min_annual_amort (p - dp) p / 12 →
      (calculate_monthly_payments p dp b rate aY hyb).amortization
          = max 0 (b - (p - dp) * rate / 12) ∧
      (calculate_monthly_payments p dp b rate aY hyb).investment = 0) ∧
    ((p - dp) * rate / 12 + spec_min_annual_amort (p - dp) p / 12 ≤ b → hyb = true →
      (calculate_monthly_payments p dp b rate aY hyb).amortization
          = spec_min_annual_amort (p - dp) p / 12 ∧
      (calculate_monthly_payments p dp b rate aY hyb).investment
          = b - (p - dp) * rate / 12 - spec_min_annual_amort (p - dp) p / 12) ∧
    ((p - dp) * rate / 12 + spec_min_annual_amort (p - dp) p / 12 ≤ b → hyb = false →
      (calculate_monthly_payments p dp b rate aY hyb).amortization
          = min ((p - dp) / 12)
              (max (spec_min_annual_amort (p - dp) p / 12) (b - (p - dp) * rate / 12)) ∧
      (calculate_monthly_payments p dp b rate aY hyb).investment = 0) := by
  have hcmp : cmp_min_amort_per_year p dp = spec_min_annual_amort (p - dp) p :=
    re_min_amort_eq_spec p dp hp
  simp only [calculate_monthly_payments, hcmp]
  by_cases hs : b ≥ (p - dp) * rate / 12 + spec_min_annual_amort (p - dp) p / 12
  · rw [if_pos (by simpa using hs)]
    cases hyb with
    | true =>
        simp only [if_pos rfl]
        refine ⟨by simpa using hs, ?_, ?_, ?_⟩
        · intro hlt
          exact absurd hs (not_le.mpr hlt)
        · intro _ _
          constructor <;> first | rfl | trivial
        · intro _ hfalse
          cases hfalse
    | false =>
        simp only [Bool.false_eq_true, if_neg (by simp : ¬False)]
        refine ⟨by simpa using hs, ?_, ?_, ?_⟩
        · intro hlt
          exact absurd hs (not_le.mpr hlt)
        · intro _ htrue
          cases htrue
        · intro _ _
          constructor <;> first | rfl | trivial
  · rw [if_neg (by simpa using hs)]
    refine ⟨by simpa using hs, ?_, ?_, ?_⟩
    · intro hlt
      refine ⟨?_, rfl⟩
      rcases le_or_lt b ((p - dp) * rate / 12) with h | h
      · rw [if_neg (not_lt.mpr h)]
        exact (max_eq_left (sub_nonpos.mpr h)).symm
      · rw [if_pos h]
        exact (max_eq_right (le_of_lt (sub_pos.mpr h))).symm
    · intro hle _
      exact absurd hle hs
    · intro hle _
      exact absurd hle hs

/-- Witness for c5_payment_calculator at price 2, down payment 1, budget 5,
rate 0, hybrid flag true. -/
theorem c5_payment_calculator_witness :
    (((calculate_monthly_payments 2 1 5 0 30 true).is_sufficient = true ↔
      (2 - 1) * 0 / 12 + spec_min_annual_amort (2 - 1) 2 / 12 ≤ 5) ∧
    ((5:ℚ) < (2 - 1) * 0 / 12 + spec_min_annual_amort (2 - 1) 2 / 12 →
      (calculate_monthly_payments 2 1 5 0 30 true).amortization
          = max 0 (5 - (2 - 1) * 0 / 12) ∧
      (calculate_monthly_payments 2 1 5 0 30 true).investment = 0) ∧
    ((2 - 1) * 0 / 12 + spec_min_annual_amort (2 - 1) 2 / 12 ≤ 5 → true = true →
      (calculate_monthly_payments 2 1 5 0 30 true).amortization
          = spec_min_annual_amort (2 - 1) 2 / 12 ∧
      (calculate_monthly_payments 2 1 5 0 30 true).investment
          = 5 - (2 - 1) * 0 / 12 - spec_min_annual_amort (2 - 1) 2 / 12) ∧
    ((2 - 1) * 0 / 12 + spec_min_annual_amort (2 - 1) 2 / 12 ≤ 5 → true = false →
      (calculate_monthly_payments 2 1 5 0 30 true).amortization
          = min ((2 - 1) / 12)
              (max (spec_min_annual_amort (2 - 1) 2 / 12) (5 - (2 - 1) * 0 / 12)) ∧
      (calculate_monthly_payments 2 1 5 0 30 true).investment = 0)) :=
  c5_payment_calculator 2 1 5 0 30 true (by norm_num)

lemma hybridStateAt_succ (P : HybridParams) (n : ℕ) :
    hybridStateAt P (n+1) = (hybridYear P n (hybridStateAt P n)).1 := rfl

lemma hybridStateAt_zero (P : HybridParams) : hybridStateAt P 0 = hybridInit P := rfl

/-- Concrete input exhibiting the doubled investment update of
`simulate_hybrid_strategy`: a fully paid property (loan 0), monthly budget 1,
all rates 0. -/
def hybridDoubleInput : HybridParams where
  property_price := 1
  down_payment := 1
  monthly_budget := 1
  interest_rate := 0
  appreciation_rate := 0
  portfolio_return := 0
  amort_years := 30

/-- C1: at `hybridDoubleInput` the first year of the hybrid simulator runs the
`balance == 0` branch, where the source applies the investment update twice
(line 364 inside the branch and line 382 at the loop tail), leaving
investmentValue 24 after year one rather than the single update
`0 * (1 + blendedReturn) + 12 * monthlyBudget = 12` the claim prescribes. -/
theorem c1_hybrid_double_investment :
    (hybridStateAt hybridDoubleInput 1).investment_value = 24 ∧
    (hybridStateAt hybridDoubleInput 1).investment_value ≠
      (hybridStateAt hybridDoubleInput 0).investment_value
        * (1 + hybridDoubleInput.portfolio_return)
        + 12 * hybridDoubleInput.monthly_budget := by
  have h24 : (hybridStateAt hybridDoubleInput 1).investment_value = 24 := by
    rw [show (1:ℕ) = 0 + 1 from rfl, hybridStateAt_succ, hybridStateAt_zero]
    norm_num [hybridYear, hybridInit, hybridDoubleInput]
  refine ⟨h24, ?_⟩
  rw [h24, hybridStateAt_zero]
  norm_num [hybridInit, hybridDoubleInput]

/-- C9: the tracker's minimum monthly amortization is
`(loan − 0.667·price)/(15·12)` with no floor, hence strictly negative whenever
the initial loan is below 0.667·price; under the pure_max strategy, a month
whose budget is below the monthly interest then records a negative
amortization and sees a strictly increasing balance. -/
theorem c9_tracker_negative_min_amort (P : LtvParams) (m : ℕ)
    (hs : P.strategy = Strategy.pure_max)
    (hloan : P.property_price - P.down_payment < (667/1000) * P.property_price)
    (hbal : 0 ≤ (ltvStateAt P m).balance)
    (hbud : P.monthly_budget < (ltvStateAt P m).balance * P.interest_rate / 12) :
    min_monthly_amort P
        = ((P.property_price - P.down_payment) - (667/1000) * P.property_price) / (15 * 12) ∧
    min_monthly_amort P < 0 ∧
    ltvAmortAt P m < 0 ∧
    (ltvStateAt P m).balance < (ltvStateAt P (m+1)).balance := by
  have heq : min_monthly_amort P
      = ((P.property_price - P.down_payment) - (667/1000) * P.property_price) / (15 * 12) := by
    unfold min_monthly_amort required_loan_reduction
    ring
  have hneg : min_monthly_amort P < 0 := by
    rw [heq]
    apply div_neg_of_neg_of_pos
    · linarith
    · norm_num
  have havail : P.monthly_budget - (ltvStateAt P m).balance * P.interest_rate / 12 < 0 := by
    linarith
  have hamort : ltvAmortAt P m
      = max (min_monthly_amort P)
          (P.monthly_budget - (ltvStateAt P m).balance * P.interest_rate / 12) := by
    have hmaxle : max (min_monthly_amort P)
        (P.monthly_budget - (ltvStateAt P m).balance * P.interest_rate / 12)
        ≤ (ltvStateAt P m).balance :=
      le_trans (le_of_lt (max_lt hneg havail)) hbal
    unfold ltvAmortAt ltvMonth
    simp only [hs, eq_self_iff_true, ite_true, reduceCtorEq, ite_false, ite_self]
    exact min_eq_right hmaxle
  have hamortneg : ltvAmortAt P m < 0 := by
    rw [hamort]
    exact max_lt hneg havail
  refine ⟨heq, hneg, hamortneg, ?_⟩
  have hstep : (ltvStateAt P (m+1)).balance
      = max 0 ((ltvStateAt P m).balance - ltvAmortAt P m) := rfl
  rw [hstep]
  have hlt : (ltvStateAt P m).balance < (ltvStateAt P m).balance - ltvAmortAt P m := by
    linarith
  exact lt_of_lt_of_le hlt (le_max_right 0 _)

/-- Input for the c9 witness: price 10, down payment 4 (loan 6 below
0.667·10), budget 0, interest rate 12, pure_max strategy. -/
def c9WitnessInput : LtvParams where
  property_price := 10
  down_payment := 4
  monthly_budget := 0
  interest_rate := 12
  monthly_growth := 1
  strategy := Strategy.pure_max

/-- Witness for c9_tracker_negative_min_amort at `c9WitnessInput`, month 0. -/
theorem c9_tracker_negative_min_amort_witness :
    min_monthly_amort c9WitnessInput
        = ((c9WitnessInput.property_price - c9WitnessInput.down_payment)
            - (667/1000) * c9WitnessInput.property_price) / (15 * 12) ∧
    min_monthly_amort c9WitnessInput < 0 ∧
    ltvAmortAt c9WitnessInput 0 < 0 ∧
    (ltvStateAt c9WitnessInput 0).balance < (ltvStateAt c9WitnessInput (0+1)).balance := by
  apply c9_tracker_negative_min_amort
  · rfl
  · norm_num [c9WitnessInput]
  · show (0:ℚ) ≤ (ltvInit c9WitnessInput).balance
    norm_num [ltvInit, c9WitnessInput]
  · show (ltvInit c9WitnessInput).balance * c9WitnessInput.interest_rate / 12 > c9WitnessInput.monthly_budget
    norm_num [ltvInit, c9WitnessInput]

end App

namespace App

lemma investLoop_eq_filter (amt rent rate : ℚ) (fuel : ℕ) :
    ∀ (m : ℕ) (v : ℚ),
      investLoop amt rent rate m fuel v
        = ((List.range fuel).filter (fun i => decide ((m + i) % 12 = 11))).map
            (fun i => (investStep amt rent rate)^[i+1] v) := by
  induction fuel with
  | zero => intro m v; rfl
  | succ f ih =>
    intro m v
    have hstep : investLoop amt rent rate m (f+1) v
        = (if m % 12 = 11 then
            (investStep amt rent rate v)
              :: investLoop amt rent rate (m+1) f (investStep amt rent rate v)
          else investLoop amt rent rate (m+1) f (investStep amt rent rate v)) := rfl
    have hpred : ((fun i => decide ((m + i) % 12 = 11)) ∘ Nat.succ)
        = (fun i => decide ((m + 1 + i) % 12 = 11)) := by
      funext i
      simp only [Function.comp_apply, decide_eq_decide]
      omega
    have hmap : ∀ (l : List ℕ),
        (l.map Nat.succ).map (fun i => (investStep amt rent rate)^[i+1] v)
          = l.map (fun i => (investStep amt rent rate)^[i+1] (investStep amt rent rate v)) := by
      intro l
      rw [List.map_map]
      apply List.map_congr_left
      intro i _
      simp only [Function.comp_apply, Nat.succ_eq_add_one]
      rw [show i + 1 + 1 = (i + 1) + 1 from rfl, Function.iterate_succ_apply]
    rw [hstep, ih (m+1) (investStep amt rent rate v),
        List.range_succ_eq_map, List.filter_cons, List.filter_map, hpred]
    by_cases hm : m % 12 = 11
    · rw [if_pos hm, if_pos (decide_eq_true (by simpa using hm))]
      rw [List.map_cons, hmap]
      simp only [Nat.zero_add, Function.iterate_one]
    · rw [if_neg hm, if_neg ?hcond]
      case hcond =>
        simp only [decide_eq_true_eq, Nat.add_zero]
        exact hm
      rw [hmap]

lemma range_filter_mod12 (Y : ℕ) :
    (List.range (12 * Y)).filter (fun i => decide (i % 12 = 11))
      = (List.range Y).map (fun k => 12 * k + 11) := by
  induction Y with
  | zero => rfl
  | succ Y ih =>
    have h12 : 12 * (Y + 1) = 12 * Y + 12 := by ring
    rw [h12, List.range_add, List.filter_append, ih]
    conv_rhs => rw [List.range_succ]
    rw [List.map_append]
    congr 1
    rw [List.filter_map]
    have hpred : ((fun i : ℕ => decide (i % 12 = 11)) ∘ (fun i => 12 * Y + i))
        = (fun i : ℕ => decide (i % 12 = 11)) := by
      funext i
      simp only [Function.comp_apply, decide_eq_decide]
      omega
    rw [hpred]
    rw [show (List.range 12).filter (fun i : ℕ => decide (i % 12 = 11)) = [11] from rfl]
    rfl

lemma simulate_investment_strategy_eq (amt rate init rent : ℚ) (Y : ℕ) :
    simulate_investment_strategy amt rate init rent Y
      = (List.range Y).map (fun k => (investStep amt rent rate)^[12*(k+1)] init) := by
  unfold simulate_investment_strategy
  rw [investLoop_eq_filter]
  simp only [Nat.zero_add]
  rw [show Y * 12 = 12 * Y from Nat.mul_comm Y 12, range_filter_mod12, List.map_map]
  apply List.map_congr_left
  intro k _
  have h : 12 * k + 11 + 1 = 12 * (k + 1) := by omega
  simp only [Function.comp_apply, h]

/-- C6: the pure-investment series element k equals the result of 12·(k+1)
applications of the unclamped monthly step to the initial equity, for every
monthly rate, in particular the exact monthly-compounding conversion
(1+monthlyRate)^12 = 1+annualReturn; when the budget is below the rent the
monthly contribution is negative. -/
theorem c6_invest_series (monthly_amount monthly_rent initial_capital annual_return
    monthly_rate : ℚ) (hr : (1 + monthly_rate)^12 = 1 + annual_return)
    (years k : ℕ) (hk : k < years) :
    (simulate_investment_strategy monthly_amount monthly_rate initial_capital
        monthly_rent years)[k]?
      = some ((investStep monthly_amount monthly_rent monthly_rate)^[12*(k+1)]
          initial_capital) ∧
    (monthly_amount < monthly_rent → monthly_amount - monthly_rent < 0) := by
  constructor
  · rw [simulate_investment_strategy_eq]
    rw [List.getElem?_map, List.getElem?_range hk]
    rfl
  · intro h
    exact sub_neg.mpr h

/-- Witness for c6_invest_series: budget 2, rent 1, zero monthly and annual
rates, one year, element 0. -/
theorem c6_invest_series_witness :
    (simulate_investment_strategy 2 0 0 1 1)[0]?
      = some ((investStep 2 1 0)^[12*(0+1)] 0) ∧
    ((2:ℚ) < 1 → (2:ℚ) - 1 < 0) :=
  c6_invest_series 2 1 0 0 0 (by norm_num) 1 0 (by norm_num)

end App

namespace App

lemma ltvStateAt_succ (P : LtvParams) (n : ℕ) :
    ltvStateAt P (n+1) = (ltvMonth P n (ltvStateAt P n)).1 := rfl

lemma ltvMonth_reached_eq (P : LtvParams) (n : ℕ) :
    (ltvStateAt P (n+1)).target_reached
      = (if ltvLtvRecAt P n ≤ 667/1000 ∧ (ltvStateAt P n).target_reached = false
         then true else (ltvStateAt P n).target_reached) := rfl

lemma ltvMonth_years_eq (P : LtvParams) (n : ℕ) :
    (ltvStateAt P (n+1)).years_to_target
      = (if ltvLtvRecAt P n ≤ 667/1000 ∧ (ltvStateAt P n).target_reached = false
         then some (n / 12 + 1) else (ltvStateAt P n).years_to_target) := rfl

lemma ltv_years_master (P : LtvParams) (n : ℕ) :
    (ltvStateAt P n).target_reached
        = (((List.range n).map (ltvLtvRecAt P)).findIdx?
            (fun x => decide (x ≤ 667/1000))).isSome ∧
    (ltvStateAt P n).years_to_target
        = (((List.range n).map (ltvLtvRecAt P)).findIdx?
            (fun x => decide (x ≤ 667/1000))).map (fun m => m / 12 + 1) := by
  induction n with
  | zero => exact ⟨rfl, rfl⟩
  | succ n ih =>
    obtain ⟨ihr, ihy⟩ := ih
    have hlist : (List.range (n+1)).map (ltvLtvRecAt P)
        = (List.range n).map (ltvLtvRecAt P) ++ [ltvLtvRecAt P n] := by
      rw [List.range_succ, List.map_append]
      rfl
    have happ : ((List.range (n+1)).map (ltvLtvRecAt P)).findIdx?
          (fun x => decide (x ≤ 667/1000))
        = (((List.range n).map (ltvLtvRecAt P)).findIdx?
            (fun x => decide (x ≤ 667/1000))).or
          ((([ltvLtvRecAt P n] : List ℚ).findIdx?
            (fun x => decide (x ≤ 667/1000))).map (fun i => i + n)) := by
      rw [hlist, List.findIdx?_append]
      simp only [List.length_map, List.length_range]
    rw [ltvMonth_reached_eq, ltvMonth_years_eq, happ]
    cases hb : (ltvStateAt P n).target_reached with
    | true =>
        have hFs : (((List.range n).map (ltvLtvRecAt P)).findIdx?
            (fun x => decide (x ≤ 667/1000))).isSome = true := by
          rw [← ihr]; exact hb
        obtain ⟨j, hj⟩ := Option.isSome_iff_exists.mp hFs
        rw [hj]
        constructor
        · rw [if_neg (by simp)]
          rfl
        · rw [if_neg (by simp), ihy, hj]
          rfl
    | false =>
        have hFs : (((List.range n).map (ltvLtvRecAt P)).findIdx?
            (fun x => decide (x ≤ 667/1000))).isSome = false := by
          rw [← ihr]; exact hb
        have hnone : ((List.range n).map (ltvLtvRecAt P)).findIdx?
            (fun x => decide (x ≤ 667/1000)) = none := by
          cases hF : ((List.range n).map (ltvLtvRecAt P)).findIdx?
              (fun x => decide (x ≤ 667/1000)) with
          | none => rfl
          | some j => rw [hF] at hFs; simp at hFs
        rw [hnone]
        by_cases hc : ltvLtvRecAt P n ≤ 667/1000
        · have hsingle : (([ltvLtvRecAt P n] : List ℚ).findIdx?
              (fun x => decide (x ≤ 667/1000))) = some 0 := by
            simp only [List.findIdx?_cons, List.findIdx?_nil]
            rw [if_pos (decide_eq_true hc)]
          rw [hsingle, if_pos ⟨hc, rfl⟩, if_pos ⟨hc, rfl⟩]
          constructor
          · rfl
          · simp [Nat.zero_add]
        · have hsingle : (([ltvLtvRecAt P n] : List ℚ).findIdx?
              (fun x => decide (x ≤ 667/1000))) = none := by
            simp only [List.findIdx?_cons, List.findIdx?_nil]
            rw [if_neg (by simpa using hc)]
          rw [hsingle, if_neg (by simp [hc]), if_neg (by simp [hc]), ihy, hnone]
          exact ⟨rfl, rfl⟩

/-- C7: the years-to-target of `calculate_ltv_progression` is none exactly
when the computed current LTV exceeds 0.667 at every one of the 360 months,
and otherwise equals m/12 + 1 for the first 0-indexed month m whose computed
current LTV is at most 0.667. -/
theorem c7_years_to_target (P : LtvParams) :
    ((calculate_ltv_progression P).1 = none ↔
      ∀ x ∈ (calculate_ltv_progression P).2.2.1, 667/1000 < x) ∧
    ∀ m, ((calculate_ltv_progression P).2.2.1).findIdx?
        (fun x => decide (x ≤ 667/1000)) = some m →
      (calculate_ltv_progression P).1 = some (m / 12 + 1) := by
  have hy : (calculate_ltv_progression P).1
      = (((List.range 360).map (ltvLtvRecAt P)).findIdx?
          (fun x => decide (x ≤ 667/1000))).map (fun m => m / 12 + 1) :=
    (ltv_years_master P 360).2
  have hlist : (calculate_ltv_progression P).2.2.1
      = (List.range 360).map (ltvLtvRecAt P) := rfl
  constructor
  · rw [hy, hlist]
    rw [Option.map_eq_none', List.findIdx?_eq_none_iff]
    constructor
    · intro h x hx
      simpa using h x hx
    · intro h x hx
      simpa using h x hx
  · intro m hm
    rw [hlist] at hm
    rw [hy, hm]
    rfl

/-- Input for the c7 witness: loan 0, so the LTV is 0 from month 0. -/
def c7WitnessInput : LtvParams where
  property_price := 1
  down_payment := 1
  monthly_budget := 0
  interest_rate := 0
  monthly_growth := 1
  strategy := Strategy.pure_max

/-- Witness for c7_years_to_target: at `c7WitnessInput` the first qualifying
month is 0 and years-to-target is 1. -/
theorem c7_years_to_target_witness :
    (calculate_ltv_progression c7WitnessInput).1 = some (0 / 12 + 1) := by
  apply (c7_years_to_target c7WitnessInput).2 0
  rw [show (calculate_ltv_progression c7WitnessInput).2.2.1
      = (List.range 360).map (ltvLtvRecAt c7WitnessInput) from rfl]
  rw [show (360:ℕ) = 359 + 1 from rfl, List.range_succ_eq_map, List.map_cons]
  simp only [List.findIdx?_cons]
  rw [if_pos (decide_eq_true ?hltv)]
  case hltv =>
    show ltvLtvRecAt c7WitnessInput 0 ≤ 667/1000
    have h0 : ltvLtvRecAt c7WitnessInput 0
        = (if (1:ℚ) * 1 > 0 then ((1:ℚ) - 1) / ((1:ℚ) * 1) else 0) := rfl
    rw [h0]
    norm_num

end App

namespace App

lemma ltv_pv_at (P : LtvParams) (n : ℕ) :
    (ltvStateAt P n).property_value = P.property_price * P.monthly_growth ^ n := by
  induction n with
  | zero => simp [ltvStateAt, ltvInit]
  | succ n ih =>
    have h : (ltvStateAt P (n+1)).property_value
        = (ltvStateAt P n).property_value * P.monthly_growth := rfl
    rw [h, ih, pow_succ]
    ring

lemma ltvLtvRecAt_eq (P : LtvParams) (n : ℕ) :
    ltvLtvRecAt P n
      = (if (ltvStateAt P n).property_value * P.monthly_growth > 0
         then (ltvStateAt P n).balance / ((ltvStateAt P n).property_value * P.monthly_growth)
         else 0) := rfl

lemma ltvBalRecAt_eq (P : LtvParams) (n : ℕ) :
    ltvBalRecAt P n = (ltvStateAt P (n+1)).balance := rfl

lemma ltvStateAt_succ_balance (P : LtvParams) (n : ℕ) :
    (ltvStateAt P (n+1)).balance = max 0 ((ltvStateAt P n).balance - ltvAmortAt P n) := rfl

lemma ltvAmortAt_eq (P : LtvParams) (m : ℕ) :
    ltvAmortAt P m
      = (if ltvLtvRecAt P m ≤ 667/1000 then
          (if P.strategy = Strategy.pure_max then
            min (ltvStateAt P m).balance
              (max (min_monthly_amort P)
                (P.monthly_budget - (ltvStateAt P m).balance * P.interest_rate / 12))
          else 0)
        else
          (if P.strategy = Strategy.hybrid then min_monthly_amort P
           else
            min (ltvStateAt P m).balance
              (max (min_monthly_amort P)
                (P.monthly_budget - (ltvStateAt P m).balance * P.interest_rate / 12)))) := rfl

lemma ltv_amort_pos_balance (P : LtvParams) (m : ℕ)
    (hpv : 0 < (ltvStateAt P m).property_value * P.monthly_growth)
    (ha : 0 < ltvAmortAt P m) : 0 < (ltvStateAt P m).balance := by
  rw [ltvAmortAt_eq] at ha
  split_ifs at ha with h1 h2 h3
  · exact lt_of_lt_of_le ha (min_le_left _ _)
  · exact absurd ha (by norm_num)
  · rw [ltvLtvRecAt_eq, if_pos hpv] at h1
    have hq : (0:ℚ) < (ltvStateAt P m).balance / ((ltvStateAt P m).property_value * P.monthly_growth) := by
      have := not_le.mp h1
      linarith
    rcases div_pos_iff.mp hq with ⟨hb, _⟩ | ⟨_, hneg⟩
    · exact hb
    · exact absurd hpv (not_lt.mpr (le_of_lt hneg))
  · exact lt_of_lt_of_le ha (min_le_left _ _)

/-- C10: the LTV recorded for month m by `calculate_ltv_progression` is the
balance before that month's amortization divided by the property value after
that month's appreciation, while the balance recorded for month m is the
balance after the amortization; hence whenever that month's amortization is
positive the recorded LTV strictly exceeds the recorded balance divided by the
same property value. -/
theorem c10_ltv_balance_mismatch (P : LtvParams) (hp : 0 < P.property_price)
    (hg : 0 < P.monthly_growth) (m : ℕ) (hm : m < 360) :
    ((calculate_ltv_progression P).2.2.1)[m]?
        = some ((ltvStateAt P m).balance / (P.property_price * P.monthly_growth ^ (m+1))) ∧
    ((calculate_ltv_progression P).2.1)[m]? = some ((ltvStateAt P (m+1)).balance) ∧
    (0 < ltvAmortAt P m →
      (ltvStateAt P (m+1)).balance / (P.property_price * P.monthly_growth ^ (m+1))
        < (ltvStateAt P m).balance / (P.property_price * P.monthly_growth ^ (m+1))) := by
  have hpv : (ltvStateAt P m).property_value * P.monthly_growth
      = P.property_price * P.monthly_growth ^ (m+1) := by
    rw [ltv_pv_at, pow_succ]
    ring
  have hpvpos : (0:ℚ) < P.property_price * P.monthly_growth ^ (m+1) :=
    mul_pos hp (pow_pos hg (m+1))
  refine ⟨?_, ?_, ?_⟩
  · rw [show (calculate_ltv_progression P).2.2.1
        = (List.range 360).map (ltvLtvRecAt P) from rfl]
    rw [List.getElem?_map, List.getElem?_range hm]
    rw [show Option.map (ltvLtvRecAt P) (some m) = some (ltvLtvRecAt P m) from rfl]
    rw [ltvLtvRecAt_eq, hpv, if_pos hpvpos]
  · rw [show (calculate_ltv_progression P).2.1
        = (List.range 360).map (ltvBalRecAt P) from rfl]
    rw [List.getElem?_map, List.getElem?_range hm]
    rw [show Option.map (ltvBalRecAt P) (some m) = some (ltvBalRecAt P m) from rfl]
    rw [ltvBalRecAt_eq]
  · intro ha
    have hb : 0 < (ltvStateAt P m).balance :=
      ltv_amort_pos_balance P m (by rw [hpv]; exact hpvpos) ha
    have hlt : (ltvStateAt P (m+1)).balance < (ltvStateAt P m).balance := by
      rw [ltvStateAt_succ_balance]
      exact max_lt hb (sub_lt_self _ ha)
    exact (div_lt_div_right hpvpos).mpr hlt

end App

namespace App

/-- Input for the c10 witness. -/
def c10WitnessInput : LtvParams where
  property_price := 2
  down_payment := 1
  monthly_budget := 1
  interest_rate := 0
  monthly_growth := 1
  strategy := Strategy.pure_max

/-- Witness for c10_ltv_balance_mismatch at `c10WitnessInput`, month 0. -/
theorem c10_ltv_balance_mismatch_witness :
    ((calculate_ltv_progression c10WitnessInput).2.2.1)[0]?
        = some ((ltvStateAt c10WitnessInput 0).balance
            / (c10WitnessInput.property_price * c10WitnessInput.monthly_growth ^ (0+1))) ∧
    ((calculate_ltv_progression c10WitnessInput).2.1)[0]?
        = some ((ltvStateAt c10WitnessInput (0+1)).balance) ∧
    (0 < ltvAmortAt c10WitnessInput 0 →
      (ltvStateAt c10WitnessInput (0+1)).balance
          / (c10WitnessInput.property_price * c10WitnessInput.monthly_growth ^ (0+1))
        < (ltvStateAt c10WitnessInput 0).balance
          / (c10WitnessInput.property_price * c10WitnessInput.monthly_growth ^ (0+1))) :=
  c10_ltv_balance_mismatch c10WitnessInput (by norm_num [c10WitnessInput])
    (by norm_num [c10WitnessInput]) 0 (by norm_num)

end App

namespace App

lemma reStateAt_succ (P : REParams) (n : ℕ) :
    reStateAt P (n+1) = (reYear P n (reStateAt P n)).1 := rfl

lemma reYear_balance (P : REParams) (y : ℕ) (s : REState) :
    (reYear P y s).1.balance = s.balance - (reYear P y s).2 := by
  simp only [reYear]
  split_ifs <;> simp

lemma reYear_amort_le (P : REParams) (y : ℕ) (s : REState) (hb : 0 ≤ s.balance) :
    (reYear P y s).2 ≤ s.balance := by
  simp only [reYear]
  split_ifs <;> first | exact hb | exact min_le_left _ _

lemma re_balance_nonneg (P : REParams) (hP : 0 ≤ P.property_price - P.down_payment) :
    ∀ n, 0 ≤ (reStateAt P n).balance := by
  intro n
  induction n with
  | zero => exact hP
  | succ n ih =>
    rw [reStateAt_succ, reYear_balance]
    exact sub_nonneg.mpr (reYear_amort_le P n (reStateAt P n) ih)

lemma hybridYear_balance (P : HybridParams) (y : ℕ) (s : HybridState) :
    (hybridYear P y s).1.balance = max 0 (s.balance - (hybridYear P y s).2) := by
  simp only [hybridYear]
  split_ifs <;> simp

lemma hybrid_balance_nonneg (P : HybridParams)
    (hP : 0 ≤ P.property_price - P.down_payment) :
    ∀ n, 0 ≤ (hybridStateAt P n).balance := by
  intro n
  cases n with
  | zero => exact hP
  | succ n =>
    rw [hybridStateAt_succ, hybridYear_balance]
    exact le_max_left 0 _

/-- C8: in both modes of the real-estate simulator and in the hybrid
simulator the loan balance is nonnegative after every yearly update, and the
balance does not increase across a year whose amortization is positive. -/
theorem c8_balance_invariants (P : REParams) (Q : HybridParams)
    (hP : 0 ≤ P.property_price - P.down_payment)
    (hQ : 0 ≤ Q.property_price - Q.down_payment)
    (y : ℕ) (hy : y < 30) :
    (0 ≤ (reStateAt P (y+1)).balance ∧
      (0 < reAmortAt P y → (reStateAt P (y+1)).balance ≤ (reStateAt P y).balance)) ∧
    (0 ≤ (hybridStateAt Q (y+1)).balance ∧
      (0 < hybridAmortAt Q y → (hybridStateAt Q (y+1)).balance ≤ (hybridStateAt Q y).balance)) := by
  refine ⟨⟨re_balance_nonneg P hP (y+1), ?_⟩, ⟨hybrid_balance_nonneg Q hQ (y+1), ?_⟩⟩
  · intro ha
    rw [reStateAt_succ, reYear_balance]
    have : (reYear P y (reStateAt P y)).2 = reAmortAt P y := rfl
    rw [this]
    linarith
  · intro ha
    rw [hybridStateAt_succ, hybridYear_balance]
    have h2 : (hybridYear Q y (hybridStateAt Q y)).2 = hybridAmortAt Q y := rfl
    rw [h2]
    apply max_le (hybrid_balance_nonneg Q hQ y)
    linarith

/-- Input for the c8 witness. -/
def c8REWitnessInput : REParams where
  property_price := 2
  down_payment := 1
  monthly_budget := 1
  interest_rate := 0
  appreciation_rate := 0
  portfolio_return := 0
  amort_years := 30
  continue_amortization := true

/-- Hybrid-side input for the c8 witness. -/
def c8HybridWitnessInput : HybridParams where
  property_price := 2
  down_payment := 1
  monthly_budget := 1
  interest_rate := 0
  appreciation_rate := 0
  portfolio_return := 0
  amort_years := 30

/-- Witness for c8_balance_invariants at year 0 of the concrete inputs. -/
theorem c8_balance_invariants_witness :
    (0 ≤ (reStateAt c8REWitnessInput (0+1)).balance ∧
      (0 < reAmortAt c8REWitnessInput 0 →
        (reStateAt c8REWitnessInput (0+1)).balance ≤ (reStateAt c8REWitnessInput 0).balance)) ∧
    (0 ≤ (hybridStateAt c8HybridWitnessInput (0+1)).balance ∧
      (0 < hybridAmortAt c8HybridWitnessInput 0 →
        (hybridStateAt c8HybridWitnessInput (0+1)).balance
          ≤ (hybridStateAt c8HybridWitnessInput 0).balance)) :=
  c8_balance_invariants c8REWitnessInput c8HybridWitnessInput
    (by norm_num [c8REWitnessInput]) (by norm_num [c8HybridWitnessInput]) 0 (by norm_num)

end App

namespace App

lemma reYear_amort_zero (P : REParams) (y : ℕ) (s : REState) (h : s.balance = 0) :
    (reYear P y s).2 = 0 := by
  simp only [reYear]
  rw [if_pos h]

lemma re_zero_absorb (P : REParams) (n : ℕ) (h : (reStateAt P n).balance = 0) :
    (reStateAt P (n+1)).balance = 0 := by
  rw [reStateAt_succ, reYear_balance, reYear_amort_zero P n _ h, h]
  ring

lemma re_zero_stable (P : REParams) {k j : ℕ} (hkj : k ≤ j)
    (h : (reStateAt P k).balance = 0) : (reStateAt P j).balance = 0 := by
  induction j with
  | zero =>
    have : k = 0 := Nat.le_zero.mp hkj
    rw [← this]
    exact h
  | succ j ih =>
    rcases Nat.lt_or_ge k (j+1) with hlt | hge
    · exact re_zero_absorb P j (ih (Nat.lt_succ_iff.mp hlt))
    · have : k = j + 1 := le_antisymm hkj hge
      rw [← this]
      exact h

lemma reYear_payoff (P : REParams) (y : ℕ) (s : REState) :
    (reYear P y s).1.payoff_year
      = (if (reYear P y s).1.balance = 0 ∧ s.balance ≠ 0 ∧ s.payoff_year = none
         then some (y + 1) else s.payoff_year) := by
  simp only [reYear]
  split_ifs <;> tauto

lemma re_payoff_master (P : REParams) (n : ℕ) :
    ∀ y, (reStateAt P n).payoff_year = some y ↔
      (1 ≤ y ∧ y ≤ n ∧ (reStateAt P y).balance = 0 ∧
        ∀ k < y, (reStateAt P k).balance ≠ 0) := by
  induction n with
  | zero =>
    intro y
    constructor
    · intro h
      exact absurd h (by simp [reStateAt, reInit])
    · rintro ⟨h1, h2, _, _⟩
      omega
  | succ n ih =>
    intro y
    have hpay : (reStateAt P (n+1)).payoff_year
        = (if (reStateAt P (n+1)).balance = 0 ∧ (reStateAt P n).balance ≠ 0 ∧
              (reStateAt P n).payoff_year = none
           then some (n + 1) else (reStateAt P n).payoff_year) :=
      reYear_payoff P n (reStateAt P n)
    rw [hpay]
    by_cases hcond : (reStateAt P (n+1)).balance = 0 ∧ (reStateAt P n).balance ≠ 0 ∧
        (reStateAt P n).payoff_year = none
    · rw [if_pos hcond]
      obtain ⟨hz, hnz, hnone⟩ := hcond
      constructor
      · intro h
        have hy : y = n + 1 := (Option.some.injEq _ _).mp h.symm
        subst hy
        refine ⟨by omega, le_refl _, hz, ?_⟩
        intro k hk
        intro hzero
        exact hnz (re_zero_stable P (by omega) hzero)
      · rintro ⟨h1, h2, h3, h4⟩
        have hy : y = n + 1 := by
          rcases Nat.lt_or_ge y (n+1) with hlt | hge
          · exact absurd (re_zero_stable P (by omega : y ≤ n) h3) hnz
          · omega
        rw [hy]
    · rw [if_neg hcond]
      rw [ih y]
      constructor
      · rintro ⟨h1, h2, h3, h4⟩
        exact ⟨h1, by omega, h3, h4⟩
      · rintro ⟨h1, h2, h3, h4⟩
        rcases Nat.lt_or_ge y (n+1) with hlt | hge
        · exact ⟨h1, by omega, h3, h4⟩
        · have hy : y = n + 1 := by omega
          subst hy
          have hnz : (reStateAt P n).balance ≠ 0 := h4 n (by omega)
          have hnnone : (reStateAt P n).payoff_year ≠ none := by
            intro hnone
            exact hcond ⟨h3, hnz, hnone⟩
          obtain ⟨y0, hy0⟩ := Option.ne_none_iff_exists'.mp hnnone
          obtain ⟨g1, g2, g3, g4⟩ := (ih y0).mp hy0
          exact absurd g3 (h4 y0 (by omega))

end App

namespace App

/-- Condition under which one year of `simulate_hybrid_strategy`, run from
state `s`, drives the pre-floor balance to exactly zero: the amortizing
branch is taken (nonzero balance, current LTV above target, year within the
amortization window) and subtracting the minimum annual amortization leaves
exactly 0 before the floor is applied. -/
def hybridHitsZeroState (P : HybridParams) (year : ℕ) (s : HybridState) : Prop :=
  s.balance ≠ 0 ∧
  (if s.property_value * (1 + P.appreciation_rate) > 0
   then s.balance / (s.property_value * (1 + P.appreciation_rate)) else 0) > 667/1000 ∧
  year < P.amort_years ∧
  s.balance - hybrid_min_amort_per_year P.property_price P.down_payment = 0

instance (P : HybridParams) (year : ℕ) (s : HybridState) :
    Decidable (hybridHitsZeroState P year s) := by
  unfold hybridHitsZeroState
  infer_instance

/-- `hybridHitsZeroState` along the trajectory of `simulate_hybrid_strategy`. -/
def hybridHitsZero (P : HybridParams) (year : ℕ) : Prop :=
  hybridHitsZeroState P year (hybridStateAt P year)

instance (P : HybridParams) (year : ℕ) : Decidable (hybridHitsZero P year) := by
  unfold hybridHitsZero
  infer_instance

lemma simulate_re_payoff_eq (P : REParams) :
    (simulate_real_estate_strategy P).2 = (reStateAt P 30).payoff_year := by
  unfold simulate_real_estate_strategy
  with_reducible rfl

lemma simulate_hybrid_payoff_eq (P : HybridParams) :
    (simulate_hybrid_strategy P).2 = (hybridStateAt P 30).payoff_year := by
  unfold simulate_hybrid_strategy
  with_reducible rfl

lemma hybridYear_payoff (P : HybridParams) (y : ℕ) (s : HybridState) :
    (hybridYear P y s).1.payoff_year
      = (if hybridHitsZeroState P y s ∧ s.payoff_year = none
         then some (y + 1) else s.payoff_year) := by
  unfold hybridHitsZeroState
  simp only [hybridYear]
  split_ifs <;> tauto

lemma forall_not_of_no_first (Q : ℕ → Prop) (n : ℕ)
    (h : ∀ k, k < n → ¬ (Q k ∧ ∀ j, j < k → ¬ Q j)) : ∀ k, k < n → ¬ Q k := by
  intro k
  induction k using Nat.strong_induction_on with
  | _ k ih =>
    intro hk hQ
    exact h k hk ⟨hQ, fun j hj => ih j hj (lt_trans hj hk)⟩

lemma hybrid_payoff_master (P : HybridParams) (n : ℕ) :
    ∀ y, (hybridStateAt P n).payoff_year = some y ↔
      (∃ k, k < n ∧ y = k + 1 ∧ hybridHitsZero P k ∧
        ∀ j, j < k → ¬ hybridHitsZero P j) := by
  induction n with
  | zero =>
    intro y
    constructor
    · intro h
      exact absurd h (by simp [hybridStateAt, hybridInit])
    · rintro ⟨k, hk, _⟩
      omega
  | succ n ih =>
    intro y
    have hpay : (hybridStateAt P (n+1)).payoff_year
        = (if hybridHitsZero P n ∧ (hybridStateAt P n).payoff_year = none
           then some (n + 1) else (hybridStateAt P n).payoff_year) :=
      hybridYear_payoff P n (hybridStateAt P n)
    rw [hpay]
    by_cases hcond : hybridHitsZero P n ∧ (hybridStateAt P n).payoff_year = none
    · rw [if_pos hcond]
      obtain ⟨hHZ, hnone⟩ := hcond
      have hnofirst : ∀ k, k < n → ¬ (hybridHitsZero P k ∧
          ∀ j, j < k → ¬ hybridHitsZero P j) := by
        intro k hk hpair
        have hsome : (hybridStateAt P n).payoff_year = some (k+1) :=
          (ih (k+1)).mpr ⟨k, hk, rfl, hpair.1, hpair.2⟩
        rw [hnone] at hsome
        cases hsome
      have hnoHZ : ∀ j, j < n → ¬ hybridHitsZero P j :=
        forall_not_of_no_first _ n hnofirst
      constructor
      · intro h
        have hy : y = n + 1 := (Option.some.injEq _ _).mp h.symm
        subst hy
        exact ⟨n, by omega, rfl, hHZ, hnoHZ⟩
      · rintro ⟨k, hk, hky, hHZk, hfirstk⟩
        rcases Nat.lt_or_ge k n with hlt | hge
        · exact absurd hHZk (hnoHZ k hlt)
        · have : k = n := by omega
          subst this
          rw [hky]
    · rw [if_neg hcond]
      rw [ih y]
      constructor
      · rintro ⟨k, hk, hky, hHZk, hfirstk⟩
        exact ⟨k, by omega, hky, hHZk, hfirstk⟩
      · rintro ⟨k, hk, hky, hHZk, hfirstk⟩
        rcases Nat.lt_or_ge k n with hlt | hge
        · exact ⟨k, hlt, hky, hHZk, hfirstk⟩
        · have hkn : k = n := by omega
          subst hkn
          have hnnone : (hybridStateAt P k).payoff_year ≠ none := by
            intro hnone
            exact hcond ⟨hHZk, hnone⟩
          obtain ⟨y0, hy0⟩ := Option.ne_none_iff_exists'.mp hnnone
          obtain ⟨k0, g1, g2, g3, g4⟩ := (ih y0).mp hy0
          exact absurd g3 (hfirstk k0 g1)

/-- C2 amended: for both modes of the real-estate simulator, payoffYear equals
some y exactly when y in 1..30 is the first index (counting the initial
balance as index 0) at which the balance is zero; for the hybrid simulator,
payoffYear equals some y exactly when y-1 is the first year whose amortizing
subtraction leaves the balance exactly zero before the floor — a balance that
reaches zero only through the floor leaves payoffYear null. -/
theorem c2_amended_payoff (P : REParams) (Q : HybridParams) :
    (∀ y, (simulate_real_estate_strategy P).2 = some y ↔
      (1 ≤ y ∧ y ≤ 30 ∧ (reStateAt P y).balance = 0 ∧
        ∀ k < y, (reStateAt P k).balance ≠ 0)) ∧
    (∀ y, (simulate_hybrid_strategy Q).2 = some y ↔
      (∃ k, k < 30 ∧ y = k + 1 ∧ hybridHitsZero Q k ∧
        ∀ j, j < k → ¬ hybridHitsZero Q j)) := by
  rw [simulate_re_payoff_eq, simulate_hybrid_payoff_eq]
  exact ⟨re_payoff_master P 30, hybrid_payoff_master Q 30⟩

end App

namespace App

lemma re_min_amort_nonneg (p dp : ℚ) (hp : 0 < p) : 0 ≤ re_min_amort_per_year p dp := by
  rw [re_min_amort_eq_spec p dp hp]
  unfold spec_min_annual_amort
  split_ifs with h
  · exact le_refl 0
  · have h2 : 667/1000 < (p - dp) / p := not_le.mp h
    have h3 : (667:ℚ)/1000 * p < p - dp := (lt_div_iff hp).mp h2
    apply div_nonneg
    · linarith
    · norm_num

lemma re_payoff_none_mono (P : REParams) (n : ℕ)
    (h : (reStateAt P (n+1)).payoff_year = none) :
    (reStateAt P n).payoff_year = none := by
  have hpay := reYear_payoff P n (reStateAt P n)
  rw [show (reYear P n (reStateAt P n)).1 = reStateAt P (n+1) from rfl] at hpay
  rw [hpay] at h
  split_ifs at h with hc
  exact h

lemma reYear_amort_branch (P : REParams) (y : ℕ) (s : REState)
    (h1 : ¬ s.balance = 0)
    (h2 : (if s.property_value * (1 + P.appreciation_rate) > 0
        then s.balance / (s.property_value * (1 + P.appreciation_rate)) else 0) > 667/1000
      ∨ (P.continue_amortization ∧ y < P.amort_years)) :
    (reYear P y s).2
      = min s.balance (max (re_min_amort_per_year P.property_price P.down_payment)
          (P.monthly_budget * 12 - s.balance * P.interest_rate)) := by
  simp only [reYear]
  rw [if_neg h1, if_pos h2]

lemma c3_invariant (P : REParams) (hc : P.continue_amortization = true)
    (ha : 30 ≤ P.amort_years) (hp : 0 < P.property_price)
    (hb : ∀ y, y < 30 → (reStateAt P y).balance * P.interest_rate
        + re_min_amort_per_year P.property_price P.down_payment
        + (P.property_price - P.down_payment) / 30 ≤ P.monthly_budget * 12)
    (hl : 0 < P.property_price - P.down_payment) :
    ∀ n, n ≤ 30 → (reStateAt P n).payoff_year = none →
      0 < (reStateAt P n).balance ∧
        (reStateAt P n).balance
          ≤ (P.property_price - P.down_payment)
            - n * ((P.property_price - P.down_payment) / 30) := by
  intro n
  induction n with
  | zero =>
    intro _ _
    have h0 : (reStateAt P 0).balance = P.property_price - P.down_payment := rfl
    constructor
    · rw [h0]
      exact hl
    · rw [h0]
      push_cast
      linarith
  | succ n ih =>
    intro hn hpnone
    have hpn : (reStateAt P n).payoff_year = none := re_payoff_none_mono P n hpnone
    obtain ⟨ihpos, ihle⟩ := ih (by omega) hpn
    have hnz : ¬ (reStateAt P n).balance = 0 := ne_of_gt ihpos
    have hcond : (if (reStateAt P n).property_value * (1 + P.appreciation_rate) > 0
        then (reStateAt P n).balance / ((reStateAt P n).property_value * (1 + P.appreciation_rate)) else 0) > 667/1000
      ∨ (P.continue_amortization ∧ n < P.amort_years) := by
      right
      constructor
      · rw [hc]
      · omega
    have hamort := reYear_amort_branch P n (reStateAt P n) hnz hcond
    have hbal : (reStateAt P (n+1)).balance
        = (reStateAt P n).balance - (reYear P n (reStateAt P n)).2 := by
      rw [reStateAt_succ]
      exact reYear_balance P n (reStateAt P n)
    have hminA : 0 ≤ re_min_amort_per_year P.property_price P.down_payment :=
      re_min_amort_nonneg _ _ hp
    have havail := hb n (by omega)
    have hs : 0 < (P.property_price - P.down_payment) / 30 := by positivity
    have hmax : max (re_min_amort_per_year P.property_price P.down_payment)
        (P.monthly_budget * 12 - (reStateAt P n).balance * P.interest_rate)
        = P.monthly_budget * 12 - (reStateAt P n).balance * P.interest_rate := by
      apply max_eq_right
      linarith
    rcases le_or_lt (reStateAt P n).balance
        (P.monthly_budget * 12 - (reStateAt P n).balance * P.interest_rate) with hge | hlt
    · exfalso
      have hzero : (reStateAt P (n+1)).balance = 0 := by
        rw [hbal, hamort, hmax, min_eq_left hge]
        ring
      have hpay := reYear_payoff P n (reStateAt P n)
      rw [show (reYear P n (reStateAt P n)).1 = reStateAt P (n+1) from rfl] at hpay
      rw [hpay, if_pos ⟨hzero, hnz, hpn⟩] at hpnone
      cases hpnone
    · have hamorteq : (reYear P n (reStateAt P n)).2
          = P.monthly_budget * 12 - (reStateAt P n).balance * P.interest_rate := by
        rw [hamort, hmax, min_eq_right (le_of_lt hlt)]
      constructor
      · rw [hbal, hamorteq]
        linarith
      · rw [hbal, hamorteq]
        push_cast
        linarith

/-- C3 amended: with continueAmortization true, amortizationYears at least 30,
a positive initial loan, and an annual budget that in every year exceeds that
year's annual interest plus the minimum annual amortization by at least one
thirtieth of the initial loan, the real-estate simulator records a payoff
year within the 30-year horizon. -/
theorem c3_amended_payoff_reached (P : REParams)
    (hc : P.continue_amortization = true) (ha : 30 ≤ P.amort_years)
    (hp : 0 < P.property_price) (hl : 0 < P.property_price - P.down_payment)
    (hb : ∀ y, y < 30 → (reStateAt P y).balance * P.interest_rate
        + re_min_amort_per_year P.property_price P.down_payment
        + (P.property_price - P.down_payment) / 30 ≤ P.monthly_budget * 12) :
    (simulate_real_estate_strategy P).2 ≠ none := by
  rw [simulate_re_payoff_eq]
  intro hnone
  obtain ⟨hpos, hle⟩ := c3_invariant P hc ha hp hb hl 30 (le_refl 30) hnone
  have h30 : (30:ℚ) * ((P.property_price - P.down_payment) / 30)
      = P.property_price - P.down_payment := by
    ring
  rw [show ((30:ℕ):ℚ) = (30:ℚ) from by norm_num, h30] at hle
  linarith

end App

namespace App

/-- Counterexample input for C3: loan 1000 on a 10000 property (initial LTV
0.1, so the regulatory minimum is 0), zero rates, and a monthly budget of
1/12, so the annual budget exceeds interest plus minimum amortization by 1
every year yet the balance only falls by 1 per year. -/
def c3CounterInput : REParams where
  property_price := 10000
  down_payment := 9000
  monthly_budget := 1/12
  interest_rate := 0
  appreciation_rate := 0
  portfolio_return := 0
  amort_years := 30
  continue_amortization := true

lemma c3_counter_balance : ∀ y, y ≤ 30 →
    (reStateAt c3CounterInput y).balance = 1000 - (y:ℚ) := by
  intro y
  induction y with
  | zero =>
    intro _
    show c3CounterInput.property_price - c3CounterInput.down_payment = 1000 - ((0:ℕ):ℚ)
    norm_num [c3CounterInput]
  | succ y ih =>
    intro hy
    have hb := ih (by omega)
    have hypos : (1000:ℚ) - (y:ℚ) ≥ 970 := by
      have : (y:ℚ) ≤ 30 := by
        exact_mod_cast Nat.le_of_lt_succ (by omega)
      linarith
    have hnz : ¬ (reStateAt c3CounterInput y).balance = 0 := by
      rw [hb]
      intro h
      linarith
    have hcond : (if (reStateAt c3CounterInput y).property_value
          * (1 + c3CounterInput.appreciation_rate) > 0
        then (reStateAt c3CounterInput y).balance
          / ((reStateAt c3CounterInput y).property_value
            * (1 + c3CounterInput.appreciation_rate)) else 0) > 667/1000
      ∨ (c3CounterInput.continue_amortization ∧ y < c3CounterInput.amort_years) := by
      right
      refine ⟨rfl, ?_⟩
      show y < 30
      omega
    have hamort := reYear_amort_branch c3CounterInput y (reStateAt c3CounterInput y) hnz hcond
    have hbal : (reStateAt c3CounterInput (y+1)).balance
        = (reStateAt c3CounterInput y).balance - (reYear c3CounterInput y (reStateAt c3CounterInput y)).2 := by
      rw [reStateAt_succ]
      exact reYear_balance c3CounterInput y (reStateAt c3CounterInput y)
    have hmm : re_min_amort_per_year c3CounterInput.property_price c3CounterInput.down_payment = 0 := by
      norm_num [c3CounterInput, re_min_amort_per_year]
    have havail : c3CounterInput.monthly_budget * 12
        - (reStateAt c3CounterInput y).balance * c3CounterInput.interest_rate = 1 := by
      rw [show c3CounterInput.interest_rate = (0:ℚ) from rfl,
          show c3CounterInput.monthly_budget = (1:ℚ)/12 from rfl]
      ring
    rw [hbal, hamort, hmm, havail, hb]
    rw [max_eq_right (by norm_num : (0:ℚ) ≤ 1), min_eq_right (by linarith)]
    push_cast
    ring

/-- C3 counterexample: at `c3CounterInput` the annual budget strictly exceeds
every year's annual interest plus the minimum annual amortization, yet
payoffYear is null: the yearly surplus (1) is too small to clear the loan
(1000) within 30 years, refuting the claim as stated. -/
theorem c3_counterexample :
    (∀ y, y < 30 →
      (reStateAt c3CounterInput y).balance * c3CounterInput.interest_rate
        + re_min_amort_per_year c3CounterInput.property_price c3CounterInput.down_payment
        < c3CounterInput.monthly_budget * 12) ∧
    (simulate_real_estate_strategy c3CounterInput).2 = none := by
  constructor
  · intro y _
    rw [show c3CounterInput.interest_rate = (0:ℚ) from rfl, mul_zero,
        show c3CounterInput.monthly_budget = (1:ℚ)/12 from rfl]
    norm_num [c3CounterInput, re_min_amort_per_year]
  · rw [simulate_re_payoff_eq]
    cases hpay : (reStateAt c3CounterInput 30).payoff_year with
    | none => rfl
    | some y =>
      obtain ⟨h1, h2, h3, _⟩ := (re_payoff_master c3CounterInput 30 y).mp hpay
      rw [c3_counter_balance y h2] at h3
      have : (y:ℚ) = 1000 := by linarith
      have : y = 1000 := by exact_mod_cast this
      omega

/-- Witness input for the amended C3. -/
def c3WitnessInput : REParams where
  property_price := 1
  down_payment := 0
  monthly_budget := 1
  interest_rate := 0
  appreciation_rate := 0
  portfolio_return := 0
  amort_years := 30
  continue_amortization := true

/-- Witness for c3_amended_payoff_reached at `c3WitnessInput`. -/
theorem c3_amended_payoff_reached_witness :
    (simulate_real_estate_strategy c3WitnessInput).2 ≠ none := by
  apply c3_amended_payoff_reached
  · rfl
  · norm_num [c3WitnessInput]
  · norm_num [c3WitnessInput]
  · norm_num [c3WitnessInput]
  · intro y _
    rw [show c3WitnessInput.interest_rate = (0:ℚ) from rfl, mul_zero,
        show c3WitnessInput.monthly_budget = (1:ℚ) from rfl,
        show c3WitnessInput.property_price = (1:ℚ) from rfl,
        show c3WitnessInput.down_payment = (0:ℚ) from rfl]
    norm_num [re_min_amort_per_year]

end App

namespace App

lemma hybridYear_pv (P : HybridParams) (y : ℕ) (s : HybridState) :
    (hybridYear P y s).1.property_value = s.property_value * (1 + P.appreciation_rate) := by
  simp only [hybridYear]
  split_ifs <;> rfl

lemma hybrid_pv_at (P : HybridParams) :
    ∀ n, (hybridStateAt P n).property_value
      = P.property_price * (1 + P.appreciation_rate) ^ n := by
  intro n
  induction n with
  | zero =>
    show P.property_price = P.property_price * (1 + P.appreciation_rate) ^ 0
    ring
  | succ n ih =>
    rw [hybridStateAt_succ, hybridYear_pv, ih, pow_succ]
    ring

lemma hybridYear_amort_zero (P : HybridParams) (y : ℕ) (s : HybridState)
    (h : s.balance = 0) : (hybridYear P y s).2 = 0 := by
  simp only [hybridYear]
  rw [if_pos h]

lemma hybrid_zero_stable (P : HybridParams) {k j : ℕ} (hkj : k ≤ j)
    (h : (hybridStateAt P k).balance = 0) : (hybridStateAt P j).balance = 0 := by
  induction j with
  | zero =>
    have : k = 0 := Nat.le_zero.mp hkj
    rw [← this]
    exact h
  | succ j ih =>
    rcases Nat.lt_or_ge k (j+1) with hlt | hge
    · have hj : (hybridStateAt P j).balance = 0 := ih (Nat.lt_succ_iff.mp hlt)
      rw [hybridStateAt_succ, hybridYear_balance, hybridYear_amort_zero P j _ hj, hj]
      norm_num
    · have : k = j + 1 := le_antisymm hkj hge
      rw [← this]
      exact h

lemma hybridYear_amort_branch (P : HybridParams) (y : ℕ) (s : HybridState)
    (h1 : ¬ s.balance = 0)
    (h2 : (if s.property_value * (1 + P.appreciation_rate) > 0
        then s.balance / (s.property_value * (1 + P.appreciation_rate)) else 0) > 667/1000
      ∧ y < P.amort_years) :
    (hybridYear P y s).2 = hybrid_min_amort_per_year P.property_price P.down_payment := by
  simp only [hybridYear]
  rw [if_neg h1, if_pos h2]

/-- Counterexample input for C2: loan 2167 on a 1000 property (a numerically
valid input with a negative down payment), appreciation −1/2, zero budget and
rates.  The minimum annual amortization is 100, so across 22 amortizing years
the balance steps from 2167 down through 67 and then to −33, which the floor
turns into 0 without the exact-zero payoff check ever firing. -/
def c2FloorInput : HybridParams where
  property_price := 1000
  down_payment := -1167
  monthly_budget := 0
  interest_rate := 0
  appreciation_rate := -(1/2)
  portfolio_return := 0
  amort_years := 30

lemma c2_minA : hybrid_min_amort_per_year c2FloorInput.property_price c2FloorInput.down_payment = 100 := by
  show hybrid_min_amort_per_year 1000 (-1167) = 100
  norm_num [hybrid_min_amort_per_year]

lemma c2_ltv_bound (y : ℕ) (hy : y ≤ 21) :
    (667:ℚ)/1000 * (1000 * (1/2:ℚ) ^ (y+1)) < 2167 - 100 * (y:ℚ) := by
  have hyq : (y:ℚ) ≤ 21 := by exact_mod_cast hy
  rcases le_or_lt y 3 with h3 | h4
  · have h3q : (y:ℚ) ≤ 3 := by exact_mod_cast h3
    have hpow : ((1:ℚ)/2) ^ (y+1) ≤ ((1:ℚ)/2) ^ 1 :=
      pow_le_pow_of_le_one (by norm_num) (by norm_num) (by omega)
    have : (667:ℚ)/1000 * (1000 * (1/2:ℚ) ^ (y+1)) ≤ 667 * ((1:ℚ)/2) ^ 1 := by
      nlinarith [pow_nonneg (by norm_num : (0:ℚ) ≤ 1/2) (y+1)]
    nlinarith
  · have hpow : ((1:ℚ)/2) ^ (y+1) ≤ ((1:ℚ)/2) ^ 5 :=
      pow_le_pow_of_le_one (by norm_num) (by norm_num) (by omega)
    have : (667:ℚ)/1000 * (1000 * (1/2:ℚ) ^ (y+1)) ≤ 667 * ((1:ℚ)/2) ^ 5 := by
      nlinarith [pow_nonneg (by norm_num : (0:ℚ) ≤ 1/2) (y+1)]
    nlinarith

lemma c2_ltv_cond (y : ℕ) (hy : y ≤ 21)
    (hb : (hybridStateAt c2FloorInput y).balance = 2167 - 100 * (y:ℚ)) :
    (if (hybridStateAt c2FloorInput y).property_value
        * (1 + c2FloorInput.appreciation_rate) > 0
      then (hybridStateAt c2FloorInput y).balance
        / ((hybridStateAt c2FloorInput y).property_value
          * (1 + c2FloorInput.appreciation_rate)) else 0) > 667/1000 := by
  have hpv : (hybridStateAt c2FloorInput y).property_value
      * (1 + c2FloorInput.appreciation_rate) = 1000 * (1/2:ℚ) ^ (y+1) := by
    rw [hybrid_pv_at]
    rw [show c2FloorInput.property_price = (1000:ℚ) from rfl,
        show (1 + c2FloorInput.appreciation_rate) = (1/2:ℚ) from by
          show (1:ℚ) + -(1/2) = 1/2
          norm_num,
        pow_succ]
    ring
  have hpvpos : (0:ℚ) < 1000 * (1/2:ℚ) ^ (y+1) := by positivity
  rw [hpv, if_pos hpvpos, hb, gt_iff_lt, lt_div_iff hpvpos]
  exact c2_ltv_bound y hy

lemma c2_balance : ∀ y, y ≤ 21 →
    (hybridStateAt c2FloorInput y).balance = 2167 - 100 * (y:ℚ) := by
  intro y
  induction y with
  | zero =>
    intro _
    show c2FloorInput.property_price - c2FloorInput.down_payment = 2167 - 100 * ((0:ℕ):ℚ)
    show (1000:ℚ) - (-1167) = 2167 - 100 * ((0:ℕ):ℚ)
    norm_num
  | succ y ih =>
    intro hy
    have hb := ih (by omega)
    have hyq : (y:ℚ) ≤ 20 := by
      have : y ≤ 20 := by omega
      exact_mod_cast this
    have hnz : ¬ (hybridStateAt c2FloorInput y).balance = 0 := by
      rw [hb]
      intro h
      linarith
    have hcond := c2_ltv_cond y (by omega) hb
    have hamort := hybridYear_amort_branch c2FloorInput y (hybridStateAt c2FloorInput y)
      hnz ⟨hcond, by show y < 30; omega⟩
    rw [hybridStateAt_succ, hybridYear_balance, hamort, c2_minA, hb]
    rw [max_eq_right (by push_cast; linarith)]
    push_cast
    ring

lemma c2_balance_22 : (hybridStateAt c2FloorInput 22).balance = 0 := by
  have hb := c2_balance 21 (le_refl 21)
  have hnz : ¬ (hybridStateAt c2FloorInput 21).balance = 0 := by
    rw [hb]
    norm_num
  have hcond := c2_ltv_cond 21 (le_refl 21) hb
  have hamort := hybridYear_amort_branch c2FloorInput 21 (hybridStateAt c2FloorInput 21)
    hnz ⟨hcond, by show 21 < 30; omega⟩
  rw [show (22:ℕ) = 21 + 1 from rfl, hybridStateAt_succ, hybridYear_balance, hamort,
      c2_minA, hb]
  norm_num

lemma c2_no_hits_zero : ∀ k, k < 30 → ¬ hybridHitsZero c2FloorInput k := by
  intro k hk hHZ
  obtain ⟨hnz, _, _, hzero⟩ := hHZ
  rcases le_or_lt k 21 with h21 | h22
  · rw [c2_balance k h21, c2_minA] at hzero
    have : (100:ℚ) * (k:ℚ) = 2067 := by linarith
    have h2 : ((100 * k : ℕ):ℚ) = ((2067:ℕ):ℚ) := by push_cast; linarith
    have h3 : 100 * k = 2067 := Nat.cast_injective h2
    omega
  · exact hnz (hybrid_zero_stable c2FloorInput (by omega) c2_balance_22)

/-- C2 counterexample: at `c2FloorInput` the hybrid simulator's year-22 update
leaves the balance at exactly zero (from nonzero), i.e. the loan balance
reaches zero within the 30-year horizon, via the floor applied after
subtracting the minimum amortization — yet payoffYear is null, because the
source checks for an exact zero before flooring.  This refutes the claim as
stated. -/
theorem c2_counterexample_floor :
    (hybridStateAt c2FloorInput 22).balance = 0 ∧
    (hybridStateAt c2FloorInput 21).balance ≠ 0 ∧
    (simulate_hybrid_strategy c2FloorInput).2 = none := by
  refine ⟨c2_balance_22, ?_, ?_⟩
  · rw [c2_balance 21 (le_refl 21)]
    norm_num
  · rw [simulate_hybrid_payoff_eq]
    cases hpay : (hybridStateAt c2FloorInput 30).payoff_year with
    | none => rfl
    | some y =>
      obtain ⟨k, hk, _, hHZ, _⟩ := (hybrid_payoff_master c2FloorInput 30 y).mp hpay
      exact absurd hHZ (c2_no_hits_zero k hk)

end App

namespace App

/-- Real-estate input for the c2 witness. -/
def c2REWitnessInput : REParams where
  property_price := 3
  down_payment := 1
  monthly_budget := 1
  interest_rate := 0
  appreciation_rate := 0
  portfolio_return := 0
  amort_years := 30
  continue_amortization := false

/-- Hybrid input for the c2 witness. -/
def c2HybridWitnessInput : HybridParams where
  property_price := 3
  down_payment := 1
  monthly_budget := 1
  interest_rate := 0
  appreciation_rate := 0
  portfolio_return := 0
  amort_years := 30

/-- Witness for c2_amended_payoff at concrete inputs. -/
theorem c2_amended_payoff_witness :
    (∀ y, (simulate_real_estate_strategy c2REWitnessInput).2 = some y ↔
      (1 ≤ y ∧ y ≤ 30 ∧ (reStateAt c2REWitnessInput y).balance = 0 ∧
        ∀ k < y, (reStateAt c2REWitnessInput k).balance ≠ 0)) ∧
    (∀ y, (simulate_hybrid_strategy c2HybridWitnessInput).2 = some y ↔
      (∃ k, k < 30 ∧ y = k + 1 ∧ hybridHitsZero c2HybridWitnessInput k ∧
        ∀ j, j < k → ¬ hybridHitsZero c2HybridWitnessInput j)) :=
  c2_amended_payoff c2REWitnessInput c2HybridWitnessInput

end App
